import Mathlib

/-!
Shallow embedding of `src/medapp.py` (MedPredict AI): the categorical
encoders, the model registry loader, and the three disease predictors
(hepatitis prognosis, HIV risk, tuberculosis screening).  Models and the
text vectorizer are opaque artifacts; they are embedded as records of
functions, and the predictors additionally return the list of calls they
make into those artifacts, so that properties about which operations are
(or are not) invoked, and with which arguments, can be stated.
-/

namespace MedApp

/-- Embedding of `map_bool` (medapp.py line 63):
`def map_bool(val): return {'False': 0, 'True': 1, 'Unknown': -1}[val]`.
A Python dict lookup raises `KeyError` on an unmapped key; this is embedded
as `none`. -/
def map_bool (val : String) : Option ℚ :=
  if val = "False" then some 0
  else if val = "True" then some 1
  else if val = "Unknown" then some (-1)
  else none

/-- Embedding of `map_sex` (medapp.py line 64):
`def map_sex(val): return 0 if val == "male" else 1`. -/
def map_sex (val : String) : ℚ :=
  if val = "male" then 0 else 1

/-- An opaque loaded model artifact: supports `predict` (a class label,
used both for comparison with 1 and as an index into the probability
row) and `predict_proba` (one probability row, since the code always
takes row `[0]`). -/
structure MLModel where
  predict : List ℚ → ℕ
  predict_proba : List ℚ → List ℚ

/-- An opaque loaded text vectorizer artifact: `transform` on one input
string (the code always passes a singleton list and uses its single row). -/
structure Vectorizer where
  transform : String → List ℚ

/-- One call made into a loaded artifact during a prediction request. -/
inductive ModelCall where
  | predictCall (features : List ℚ)
  | predictProbaCall (features : List ℚ)
  | transformCall (text : String)
  deriving DecidableEq

/-- The load outcome of each artifact on disk: `none` means the
corresponding `joblib.load` raises. -/
structure LoadEnv where
  hepatitisArtifact : Option MLModel
  hivArtifact : Option MLModel
  vectorizerArtifact : Option Vectorizer
  tbArtifact : Option MLModel

/-- The registry `load_models` returns: every key is always present,
holding a handle or `None`. -/
structure Registry where
  hepatitis : Option MLModel
  hiv : Option MLModel
  vectorizer : Option Vectorizer
  tb : Option MLModel

/-- A `joblib.load` call that was actually reached (attempted). -/
inductive LoadAttempt where
  | hepatitisLoad
  | hivLoad
  | vectorizerLoad
  | tbLoad
  deriving DecidableEq

/-- Embedding of `load_models` (medapp.py lines 20-42).  Three `try`
blocks run in sequence: hepatitis; HIV model then vectorizer (one shared
block, so an exception on the HIV model load skips the vectorizer load,
and either failure sets both entries to `None`); TB.  Each `except`
records `None` and emits a diagnostic.  Besides the registry, the
embedding returns the list of load calls that were reached and the list
of emitted diagnostics. -/
def load_models (env : LoadEnv) : Registry × List LoadAttempt × List String :=
  let (hep, hepAtt, hepDiag) :=
    match env.hepatitisArtifact with
    | some m => (some m, [LoadAttempt.hepatitisLoad], ([] : List String))
    | none => (none, [LoadAttempt.hepatitisLoad], ["Error loading Hepatitis model"])
  let (hiv, vect, hivAtt, hivDiag) :=
    match env.hivArtifact with
    | none =>
        ((none : Option MLModel), (none : Option Vectorizer),
         [LoadAttempt.hivLoad], ["Error loading HIV model/vectorizer"])
    | some m =>
        match env.vectorizerArtifact with
        | none =>
            (none, none, [LoadAttempt.hivLoad, LoadAttempt.vectorizerLoad],
             ["Error loading HIV model/vectorizer"])
        | some v =>
            (some m, some v, [LoadAttempt.hivLoad, LoadAttempt.vectorizerLoad], [])
  let (tb, tbAtt, tbDiag) :=
    match env.tbArtifact with
    | some m => (some m, [LoadAttempt.tbLoad], ([] : List String))
    | none => (none, [LoadAttempt.tbLoad], ["Error loading TB model"])
  (⟨hep, hiv, vect, tb⟩, hepAtt ++ hivAtt ++ tbAtt, hepDiag ++ hivDiag ++ tbDiag)

/-- The raw hepatitis form values, one per widget (medapp.py lines 75-92).
Numeric widgets yield numbers, select boxes yield strings. -/
structure HepInput where
  age : ℚ
  sex : String
  steroid : String
  antivirals : String
  fatigue : String
  anorexia : String
  spiders : String
  ascites : String
  liver_big : String
  spleen_palpable : String
  varices : String
  histology : String
  bilirubin : ℚ
  alk_phos : ℚ
  sgot : ℚ
  albumin : ℚ
  protime : ℚ

/-- Embedding of the `features` list (medapp.py lines 97-103), in the
source's element order: age, sex, steroid, antivirals, fatigue, anorexia,
liver_big, spleen_palpable, spiders, ascites, varices, histology,
bilirubin, alk_phos, sgot, albumin, protime.  `none` when any `map_bool`
lookup raises. -/
def hepFeatures (i : HepInput) : Option (List ℚ) := do
  let steroidv ← map_bool i.steroid
  let antiviralsv ← map_bool i.antivirals
  let fatiguev ← map_bool i.fatigue
  let anorexiav ← map_bool i.anorexia
  let liverv ← map_bool i.liver_big
  let spleenv ← map_bool i.spleen_palpable
  let spidersv ← map_bool i.spiders
  let ascitesv ← map_bool i.ascites
  let varicesv ← map_bool i.varices
  let histologyv ← map_bool i.histology
  return [i.age, map_sex i.sex, steroidv, antiviralsv, fatiguev, anorexiav,
          liverv, spleenv, spidersv, ascitesv, varicesv, histologyv,
          i.bilirubin, i.alk_phos, i.sgot, i.albumin, i.protime]

/-- Feature order as the spec (section 4.3) lists it, for comparison with
`hepFeatures`: age, encoded sex, steroid, antivirals, fatigue, anorexia,
spiders, ascites, liver-enlarged, spleen-palpable, varices, histology,
bilirubin, alkaline phosphatase, SGOT, albumin, prothrombin time. -/
def hepFeaturesSpecOrder (i : HepInput) : Option (List ℚ) := do
  let steroidv ← map_bool i.steroid
  let antiviralsv ← map_bool i.antivirals
  let fatiguev ← map_bool i.fatigue
  let anorexiav ← map_bool i.anorexia
  let liverv ← map_bool i.liver_big
  let spleenv ← map_bool i.spleen_palpable
  let spidersv ← map_bool i.spiders
  let ascitesv ← map_bool i.ascites
  let varicesv ← map_bool i.varices
  let histologyv ← map_bool i.histology
  return [i.age, map_sex i.sex, steroidv, antiviralsv, fatiguev, anorexiav,
          spidersv, ascitesv, liverv, spleenv, varicesv, histologyv,
          i.bilirubin, i.alk_phos, i.sgot, i.albumin, i.protime]

/-- Outcome of a hepatitis submission.  `unavailable` is the
"Hepatitis model not found" message; `favorable` is
"Favorable Prognosis" (`st.success`), `concerning` is
"Concerning Prognosis" (`st.error`); `encodingFailure` is a propagated
`KeyError` from `map_bool`. -/
inductive HepResult where
  | unavailable
  | encodingFailure
  | favorable
  | concerning
  deriving DecidableEq

/-- Embedding of the hepatitis branch (medapp.py lines 67-108): if the
model handle is `None`, report unavailability; otherwise build the
feature list, call `predict` once, and classify label 1 as favorable,
anything else as concerning.  The second component is the list of
artifact calls made. -/
def hepPredict (model : Option MLModel) (i : HepInput) :
    HepResult × List ModelCall :=
  match model with
  | none => (HepResult.unavailable, [])
  | some m =>
      match hepFeatures i with
      | none => (HepResult.encodingFailure, [])
      | some fs =>
          ((if m.predict fs = 1 then HepResult.favorable else HepResult.concerning),
           [ModelCall.predictCall fs])

/-- Outcome of an HIV submission.  `unavailable` is
"Model or vectorizer not found"; `selectionRequired` is the
"Please select symptoms" warning; `highRisk`/`lowRisk` carry the
reported confidence; `probaIndexError` is a propagated out-of-range
index into the probability row. -/
inductive HivResult where
  | unavailable
  | selectionRequired
  | highRisk (confidence : ℚ)
  | lowRisk (confidence : ℚ)
  | probaIndexError
  deriving DecidableEq

/-- The confidence an `HivResult` reports, when it reports one. -/
def hivConfidence : HivResult → Option ℚ
  | HivResult.highRisk c => some c
  | HivResult.lowRisk c => some c
  | _ => none

/-- Embedding of the HIV branch (medapp.py lines 111-133): if the model
or the vectorizer handle is `None`, report unavailability; on an empty
selection, warn and stop; otherwise join the selected symptom names with
", ", vectorize, predict, take the probability at the predicted label's
index, and classify label 1 as high risk, anything else as low risk. -/
def hivPredict (model : Option MLModel) (vect : Option Vectorizer)
    (selected : List String) : HivResult × List ModelCall :=
  match model, vect with
  | some m, some v =>
      if selected.isEmpty then (HivResult.selectionRequired, [])
      else
        let joined := String.intercalate ", " selected
        let vec := v.transform joined
        let pred := m.predict vec
        let res :=
          match (m.predict_proba vec)[pred]? with
          | none => HivResult.probaIndexError
          | some prob =>
              if pred = 1 then HivResult.highRisk prob else HivResult.lowRisk prob
        (res, [ModelCall.transformCall joined, ModelCall.predictCall vec,
               ModelCall.predictProbaCall vec])
  | _, _ => (HivResult.unavailable, [])

/-- Outcome of a TB screening run, analogous to `HivResult`. -/
inductive TbResult where
  | unavailable
  | highTbRisk (confidence : ℚ)
  | lowTbRisk (confidence : ℚ)
  | probaIndexError
  deriving DecidableEq

/-- The confidence a `TbResult` reports, when it reports one. -/
def tbConfidence : TbResult → Option ℚ
  | TbResult.highTbRisk c => some c
  | TbResult.lowTbRisk c => some c
  | _ => none

/-- Embedding of the `tb_data` assembly (medapp.py lines 145-148): each
select box value contributes 1 if it reads "Present", else 0. -/
def tbEncode (vals : List String) : List ℚ :=
  vals.map (fun v => if v = "Present" then 1 else 0)

/-- Embedding of the TB branch (medapp.py lines 136-156): if the model
handle is `None`, report unavailability; otherwise encode the eight
flags, predict, take the probability at the predicted label's index, and
classify label 1 as high TB risk, anything else as low TB risk. -/
def tbPredict (model : Option MLModel) (vals : List String) :
    TbResult × List ModelCall :=
  match model with
  | none => (TbResult.unavailable, [])
  | some m =>
      let fs := tbEncode vals
      let pred := m.predict fs
      let res :=
        match (m.predict_proba fs)[pred]? with
        | none => TbResult.probaIndexError
        | some prob =>
            if pred = 1 then TbResult.highTbRisk prob else TbResult.lowTbRisk prob
      (res, [ModelCall.predictCall fs, ModelCall.predictProbaCall fs])

/-! Concrete artifacts and inputs, used to evaluate the embedding at
specific points. -/

/-- A model that always predicts label 1, with probability row [3/10, 7/10]. -/
def constModel : MLModel :=
  ⟨fun _ => 1, fun _ => [3/10, 7/10]⟩

/-- A model that always predicts label 0, with probability row [3/10, 7/10]:
its predicted-class probability (3/10) differs from both the row maximum
and the positive-class probability (7/10). -/
def skewModel : MLModel :=
  ⟨fun _ => 0, fun _ => [3/10, 7/10]⟩

/-- A model that always predicts label 2, with probability row
[1/5, 3/10, 1/2]. -/
def labelTwoModel : MLModel :=
  ⟨fun _ => 2, fun _ => [1/5, 3/10, 1/2]⟩

/-- A vectorizer returning a fixed three-entry row. -/
def constVectorizer : Vectorizer :=
  ⟨fun _ => [1, 0, 1]⟩

/-- A filled hepatitis form: every tri-state field answers "False" except
spiders, which answers "True". -/
def cexHepInput : HepInput :=
  ⟨40, "female", "False", "False", "False", "False", "True", "False",
   "False", "False", "False", "False", 1, 85, 25, 4, 85⟩

/-- A load environment in which only the HIV model artifact fails. -/
def cexLoadEnv : LoadEnv :=
  ⟨some constModel, none, some constVectorizer, some constModel⟩

/-- A load environment in which every artifact fails. -/
def failAllEnv : LoadEnv :=
  ⟨none, none, none, none⟩

/-! Theorems settling the claims. -/

/-- C2: `map_bool` returns 0 for "False", 1 for "True", -1 for "Unknown",
and raises (returns `none`) on every other input, never a default. -/
theorem C2_map_bool_spec :
    map_bool "False" = some 0 ∧ map_bool "True" = some 1 ∧
    map_bool "Unknown" = some (-1) ∧
    ∀ s : String, s ≠ "False" → s ≠ "True" → s ≠ "Unknown" → map_bool s = none := by
  refine ⟨rfl, rfl, rfl, fun s h1 h2 h3 => ?_⟩
  simp [map_bool, h1, h2, h3]

/-- C2 witness: `map_bool` at the unmapped input "maybe" raises. -/
theorem C2_witness : map_bool "maybe" = none :=
  C2_map_bool_spec.2.2.2 "maybe" (by decide) (by decide) (by decide)

/-- C3: `map_sex` is total: 0 for exactly "male", 1 for every other
string, and it never raises (it is a total Lean function). -/
theorem C3_map_sex_total :
    map_sex "male" = 0 ∧ map_sex "female" = 1 ∧
    ∀ s : String, s ≠ "male" → map_sex s = 1 := by
  refine ⟨rfl, rfl, fun s h => ?_⟩
  simp [map_sex, h]

/-- C3 witness: the typo "Male" maps to 1. -/
theorem C3_witness : map_sex "Male" = 1 :=
  C3_map_sex_total.2.2 "Male" (by decide)

/-- C1 counterexample: on the form where only spiders answers "True",
the vector the hepatitis branch passes to `predict` carries the 1 at
position 8 (liver-enlarged and spleen-palpable occupy positions 6 and 7),
whereas the spec's listed order would carry the 1 at position 6; the two
orders disagree on this submission. -/
theorem C1_counterexample :
    (hepPredict (some constModel) cexHepInput).2 =
      [ModelCall.predictCall
        [40, 1, 0, 0, 0, 0, 0, 0, 1, 0, 0, 0, 1, 85, 25, 4, 85]] ∧
    hepFeaturesSpecOrder cexHepInput =
      some [40, 1, 0, 0, 0, 0, 1, 0, 0, 0, 0, 0, 1, 85, 25, 4, 85] ∧
    hepFeatures cexHepInput ≠ hepFeaturesSpecOrder cexHepInput := by
  refine ⟨by decide, by decide, by decide⟩

/-- C1 (amended): the hepatitis branch assembles the 17-field vector in
the source's order — age, encoded sex, steroid, antivirals, fatigue,
anorexia, liver-enlarged, spleen-palpable, spiders, ascites, varices,
histology, bilirubin, alkaline phosphatase, SGOT, albumin, prothrombin
time — and passes exactly that vector to `predict` on every submission
whose tri-state fields all encode. -/
theorem C1_hep_feature_order (m : MLModel) (i : HepInput)
    (steroidv antiviralsv fatiguev anorexiav liverv spleenv spidersv ascitesv
      varicesv histologyv : ℚ)
    (hst : map_bool i.steroid = some steroidv)
    (hav : map_bool i.antivirals = some antiviralsv)
    (hfa : map_bool i.fatigue = some fatiguev)
    (han : map_bool i.anorexia = some anorexiav)
    (hlb : map_bool i.liver_big = some liverv)
    (hsp : map_bool i.spleen_palpable = some spleenv)
    (hsd : map_bool i.spiders = some spidersv)
    (hac : map_bool i.ascites = some ascitesv)
    (hva : map_bool i.varices = some varicesv)
    (hhi : map_bool i.histology = some histologyv) :
    (hepPredict (some m) i).2 =
      [ModelCall.predictCall
        [i.age, map_sex i.sex, steroidv, antiviralsv, fatiguev, anorexiav,
         liverv, spleenv, spidersv, ascitesv, varicesv, histologyv,
         i.bilirubin, i.alk_phos, i.sgot, i.albumin, i.protime]] := by
  simp [hepPredict, hepFeatures, hst, hav, hfa, han, hlb, hsp, hsd, hac, hva, hhi]

/-- C1 witness: the amended order theorem evaluated on the concrete form
where only spiders answers "True". -/
theorem C1_witness :
    (hepPredict (some constModel) cexHepInput).2 =
      [ModelCall.predictCall
        [40, 1, 0, 0, 0, 0, 0, 0, 1, 0, 0, 0, 1, 85, 25, 4, 85]] := by
  have h := C1_hep_feature_order constModel cexHepInput 0 0 0 0 0 0 1 0 0 0
    rfl rfl rfl rfl rfl rfl rfl rfl rfl rfl
  exact h.trans (by decide)

/-- C4 counterexample: in the environment where only the HIV model
artifact fails to load, the vectorizer load is never attempted — the
failure of one load does prevent a remaining load from being attempted —
even though the other registry entries load fine. -/
theorem C4_counterexample :
    (load_models cexLoadEnv).1.hepatitis.isSome = true ∧
    (load_models cexLoadEnv).1.tb.isSome = true ∧
    LoadAttempt.vectorizerLoad ∉ (load_models cexLoadEnv).2.1 := by
  refine ⟨rfl, rfl, by decide⟩

/-- C4 (amended): `load_models` never throws; the hepatitis, HIV-model
and TB loads are always attempted, while the vectorizer load is attempted
exactly when the HIV model load succeeds (they share one try block);
every load failure is caught, the affected registry entries (both HIV
entries for a failure in their shared block) are set to `None` with a
diagnostic, and the returned structure always maps every model key to a
handle or absent. -/
theorem C4_load_models_amended (env : LoadEnv) :
    LoadAttempt.hepatitisLoad ∈ (load_models env).2.1 ∧
    LoadAttempt.hivLoad ∈ (load_models env).2.1 ∧
    LoadAttempt.tbLoad ∈ (load_models env).2.1 ∧
    (LoadAttempt.vectorizerLoad ∈ (load_models env).2.1 ↔
      env.hivArtifact.isSome = true) ∧
    (load_models env).1.hepatitis = env.hepatitisArtifact ∧
    (load_models env).1.tb = env.tbArtifact ∧
    (env.hepatitisArtifact = none →
      "Error loading Hepatitis model" ∈ (load_models env).2.2) ∧
    (env.tbArtifact = none → "Error loading TB model" ∈ (load_models env).2.2) ∧
    ((env.hivArtifact = none ∨ env.vectorizerArtifact = none) →
      (load_models env).1.hiv = none ∧ (load_models env).1.vectorizer = none ∧
      "Error loading HIV model/vectorizer" ∈ (load_models env).2.2) ∧
    (∀ m v, env.hivArtifact = some m → env.vectorizerArtifact = some v →
      (load_models env).1.hiv = some m ∧ (load_models env).1.vectorizer = some v) := by
  obtain ⟨hep, hiv, vect, tb⟩ := env
  cases hep <;> cases hiv <;> cases vect <;> cases tb <;>
    simp [load_models]

/-- C4 witness: the amended load theorem evaluated on the environment
where every artifact fails. -/
theorem C4_witness :
    (load_models failAllEnv).1.hiv = none ∧
    "Error loading Hepatitis model" ∈ (load_models failAllEnv).2.2 := by
  obtain ⟨-, -, -, -, -, -, hhep, -, hhiv, -⟩ := C4_load_models_amended failAllEnv
  exact ⟨(hhiv (Or.inl rfl)).1, hhep rfl⟩

/-- C5: after loading, the HIV model and vectorizer registry entries are
present or absent together, and the HIV branch performs no inference (and
makes no artifact call) when either handle is absent. -/
theorem C5_hiv_pairing (env : LoadEnv) (selected : List String) :
    ((load_models env).1.hiv.isSome = true ↔
      (load_models env).1.vectorizer.isSome = true) ∧
    (∀ v, hivPredict none v selected = (HivResult.unavailable, [])) ∧
    (∀ m, hivPredict m none selected = (HivResult.unavailable, [])) := by
  refine ⟨?_, fun v => ?_, fun m => ?_⟩
  · obtain ⟨hep, hiv, vect, tb⟩ := env
    cases hep <;> cases hiv <;> cases vect <;> cases tb <;> simp [load_models]
  · cases v <;> rfl
  · cases m <;> rfl

/-- C5 witness: the pairing theorem evaluated on the environment where
only the HIV model artifact fails, and on a missing-model call. -/
theorem C5_witness :
    ((load_models cexLoadEnv).1.hiv.isSome = true ↔
      (load_models cexLoadEnv).1.vectorizer.isSome = true) ∧
    hivPredict none (some constVectorizer) ["Fever"] = (HivResult.unavailable, []) :=
  ⟨(C5_hiv_pairing cexLoadEnv ["Fever"]).1,
   (C5_hiv_pairing cexLoadEnv ["Fever"]).2.1 (some constVectorizer)⟩

/-- Helper: the confidence of an HIV label branch is the probability fed
into it, whichever side of the label-1 test is taken. -/
theorem hivConfidence_branch (pred : ℕ) (p : ℚ) :
    hivConfidence
      (if pred = 1 then HivResult.highRisk p else HivResult.lowRisk p) = some p := by
  split <;> rfl

/-- Helper: the confidence of a TB label branch is the probability fed
into it, whichever side of the label-1 test is taken. -/
theorem tbConfidence_branch (pred : ℕ) (p : ℚ) :
    tbConfidence
      (if pred = 1 then TbResult.highTbRisk p else TbResult.lowTbRisk p) = some p := by
  split <;> rfl

/-- C6: on an empty symptom selection the HIV branch emits the
selection-required warning and makes no artifact call at all; on any
non-empty selection it does vectorize and invoke the model. -/
theorem C6_hiv_empty_selection (m : MLModel) (v : Vectorizer)
    (selected : List String) (hne : selected ≠ []) :
    hivPredict (some m) (some v) [] = (HivResult.selectionRequired, []) ∧
    ModelCall.transformCall (String.intercalate ", " selected) ∈
      (hivPredict (some m) (some v) selected).2 ∧
    ModelCall.predictCall (v.transform (String.intercalate ", " selected)) ∈
      (hivPredict (some m) (some v) selected).2 := by
  obtain ⟨a, as, rfl⟩ := List.exists_cons_of_ne_nil hne
  refine ⟨rfl, ?_, ?_⟩ <;> simp [hivPredict]

/-- C6 witness: the empty-selection theorem evaluated at concrete
artifacts and the singleton selection ["Fever"]. -/
theorem C6_witness :
    hivPredict (some constModel) (some constVectorizer) [] =
      (HivResult.selectionRequired, []) :=
  (C6_hiv_empty_selection constModel constVectorizer ["Fever"] (by simp)).1

/-- C7: for every non-empty selection, the strings passed to the
vectorizer's transform are exactly the comma-space join of the selected
symptom names — a string is transformed iff it is that join. -/
theorem C7_hiv_join (m : MLModel) (v : Vectorizer) (selected : List String)
    (hne : selected ≠ []) (s : String) :
    ModelCall.transformCall s ∈ (hivPredict (some m) (some v) selected).2 ↔
      s = String.intercalate ", " selected := by
  obtain ⟨a, as, rfl⟩ := List.exists_cons_of_ne_nil hne
  simp [hivPredict]

/-- C7 witness: the selection ["Fever", "Fatigue"] is passed to the
vectorizer as the exact string "Fever, Fatigue". -/
theorem C7_witness :
    ModelCall.transformCall "Fever, Fatigue" ∈
      (hivPredict (some constModel) (some constVectorizer)
        ["Fever", "Fatigue"]).2 :=
  (C7_hiv_join constModel constVectorizer ["Fever", "Fatigue"] (by simp)
    "Fever, Fatigue").mpr (by decide)

/-- C8: for both the HIV and the TB branch, the reported confidence is
the entry of the model's probability row at the index of the predicted
label (and nothing is reported when that index is out of range). -/
theorem C8_confidence (m : MLModel) (v : Vectorizer) (selected : List String)
    (hne : selected ≠ []) (vals : List String) :
    hivConfidence (hivPredict (some m) (some v) selected).1 =
      (m.predict_proba
        (v.transform (String.intercalate ", " selected)))[
          m.predict (v.transform (String.intercalate ", " selected))]? ∧
    tbConfidence (tbPredict (some m) vals).1 =
      (m.predict_proba (tbEncode vals))[m.predict (tbEncode vals)]? := by
  obtain ⟨a, as, rfl⟩ := List.exists_cons_of_ne_nil hne
  constructor
  · rcases h : (m.predict_proba (v.transform (String.intercalate ", " (a :: as))))[
        m.predict (v.transform (String.intercalate ", " (a :: as)))]? with _ | p
    · simp [hivPredict, h, hivConfidence]
    · simp [hivPredict, h, hivConfidence_branch]
  · rcases h : (m.predict_proba (tbEncode vals))[m.predict (tbEncode vals)]?
        with _ | p
    · simp [tbPredict, h, tbConfidence]
    · simp [tbPredict, h, tbConfidence_branch]

/-- C8 witness: with a model that predicts label 0 over the probability
row [3/10, 7/10], the reported confidence is 3/10 — the predicted class's
probability, not the row maximum 7/10 and not the positive class's
7/10. -/
theorem C8_witness :
    hivConfidence
      (hivPredict (some skewModel) (some constVectorizer) ["Fever"]).1 =
      some (3/10) := by
  have h := (C8_confidence skewModel constVectorizer ["Fever"] (by simp) []).1
  exact h.trans rfl

/-- C10: in the HIV and TB branches, a predicted label of exactly 1 gives
the high-risk result and every other label gives the low-risk result, in
both cases carrying the probability-row entry at that label's index. -/
theorem C10_label_branch (m : MLModel) (v : Vectorizer) (selected : List String)
    (hne : selected ≠ []) (vals : List String) (c : ℚ) :
    ((m.predict_proba
        (v.transform (String.intercalate ", " selected)))[
          m.predict (v.transform (String.intercalate ", " selected))]? = some c →
      (m.predict (v.transform (String.intercalate ", " selected)) ≠ 1 →
        (hivPredict (some m) (some v) selected).1 = HivResult.lowRisk c) ∧
      (m.predict (v.transform (String.intercalate ", " selected)) = 1 →
        (hivPredict (some m) (some v) selected).1 = HivResult.highRisk c)) ∧
    ((m.predict_proba (tbEncode vals))[m.predict (tbEncode vals)]? = some c →
      (m.predict (tbEncode vals) ≠ 1 →
        (tbPredict (some m) vals).1 = TbResult.lowTbRisk c) ∧
      (m.predict (tbEncode vals) = 1 →
        (tbPredict (some m) vals).1 = TbResult.highTbRisk c)) := by
  obtain ⟨a, as, rfl⟩ := List.exists_cons_of_ne_nil hne
  constructor
  · intro hp
    refine ⟨fun h1 => ?_, fun h1 => ?_⟩
    · simp [hivPredict, hp, h1]
    · rw [h1] at hp
      simp [hivPredict, hp, h1]
  · intro hp
    refine ⟨fun h1 => ?_, fun h1 => ?_⟩
    · simp [tbPredict, hp, h1]
    · rw [h1] at hp
      simp [tbPredict, hp, h1]

/-- C10 witness: a model that predicts label 2 over the probability row
[1/5, 3/10, 1/2] yields the low-risk result with confidence 1/2 — a
non-1, non-0 label still takes the low-risk branch, at its own index. -/
theorem C10_witness :
    (hivPredict (some labelTwoModel) (some constVectorizer) ["Fever"]).1 =
      HivResult.lowRisk (1/2) :=
  ((C10_label_branch labelTwoModel constVectorizer ["Fever"] (by simp) []
      (1/2)).1 rfl).1 (by decide)

/-- C9: the hepatitis branch performs no inference when the model handle
is absent (reporting unavailability with no artifact call); when present
it invokes `predict` once, classifies label 1 as favorable and every
other label as concerning, and never invokes the probability method. -/
theorem C9_hepatitis (m : MLModel) (i : HepInput) (fs : List ℚ)
    (hfs : hepFeatures i = some fs) :
    hepPredict none i = (HepResult.unavailable, []) ∧
    hepPredict (some m) i =
      ((if m.predict fs = 1 then HepResult.favorable else HepResult.concerning),
       [ModelCall.predictCall fs]) ∧
    (∀ mo : Option MLModel, ∀ c ∈ (hepPredict mo i).2,
      ∀ l, c ≠ ModelCall.predictProbaCall l) := by
  refine ⟨rfl, by simp [hepPredict, hfs], ?_⟩
  rintro (_ | mo) c hc l
  · simp [hepPredict] at hc
  · simp [hepPredict, hfs] at hc
    subst hc
    simp

/-- C9 witness: the hepatitis theorem evaluated on the concrete form
where only spiders answers "True", with a model that predicts label 1:
the result is favorable and the only artifact call is one `predict`. -/
theorem C9_witness :
    hepPredict (some constModel) cexHepInput =
      (HepResult.favorable,
       [ModelCall.predictCall
         [40, 1, 0, 0, 0, 0, 0, 0, 1, 0, 0, 0, 1, 85, 25, 4, 85]]) := by
  have h := (C9_hepatitis constModel cexHepInput
      [40, 1, 0, 0, 0, 0, 0, 0, 1, 0, 0, 0, 1, 85, 25, 4, 85] (by decide)).2.1
  exact h.trans (by decide)

end MedApp
